import Mathlib

/-!
Verification of the response-object materialization engine of the
coinbase-python client library, shallowly embedded in Lean 4.

The repository carries two parallel generations of the engine:
  * the newer "wallet" variant (`coinbase/wallet/model.py`,
    `coinbase/wallet/client.py`, `coinbase/wallet/error.py`), and
  * the older variant (`coinbase/model.py`, `coinbase/client.py`,
    `coinbase/util.py`).
Both are embedded below, each in its own namespace.  JSON values are
modelled by the inductive type `JSON`; Python dicts decoded from JSON are
modelled as insertion-ordered association lists with distinct keys, and
dict assignment (`d[k] = v`) by `dictSet`, which overwrites in place or
appends.  A Python exception escaping a modelled operation is modelled by
`Option`/`Except` error results.
-/

/-- JSON values as decoded by `response.json()`: scalars (null, booleans,
numbers, strings), arrays, and objects.  Objects are insertion-ordered
association lists; numbers are modelled as integers (no claim here depends
on float behaviour). -/
inductive JSON where
  | null : JSON
  | bool (b : Bool) : JSON
  | num (n : Int) : JSON
  | str (s : String) : JSON
  | arr (elems : List JSON) : JSON
  | obj (fields : List (String × JSON)) : JSON
deriving Repr

/-- Python `d.get(k)` on an association list: the value stored under the
first occurrence of `k`, if any. -/
def jlookup (k : String) : List (String × α) → Option α
  | [] => none
  | (k₀, v) :: rest => if k₀ = k then some v else jlookup k rest

/-- Python dict assignment `d[k] = v` on an insertion-ordered association
list: overwrite in place if the key is present, append otherwise. -/
def dictSet (fields : List (String × α)) (k : String) (v : α) : List (String × α) :=
  if fields.any (fun p => p.1 = k) then
    fields.map (fun p => if p.1 = k then (k, v) else p)
  else
    fields ++ [(k, v)]

/-- Python truthiness of a decoded JSON value (`bool(x)`). -/
def JSON.truthy : JSON → Bool
  | .null => false
  | .bool b => b
  | .num n => n != 0
  | .str s => !s.isEmpty
  | .arr xs => !xs.isEmpty
  | .obj fs => !fs.isEmpty

/-- True when the value is a JSON object or array (a composite node). -/
def JSON.isComposite : JSON → Bool
  | .obj _ => true
  | .arr _ => true
  | _ => false

/-- Equality of scalar JSON values (used to state that materialization
leaves scalars bit-identical). -/
def scalarEq : JSON → JSON → Bool
  | .null, .null => true
  | .bool a, .bool b => a == b
  | .num a, .num b => a == b
  | .str a, .str b => a == b
  | _, _ => false

/-- No string occurs twice in the list (key lists of decoded dicts). -/
def nodupKeys : List String → Bool
  | [] => true
  | k :: rest => !rest.contains k && nodupKeys rest

mutual
/-- Every object node of the value has pairwise distinct keys; this is the
invariant satisfied by any value produced by `json.loads`, whose objects
are Python dicts. -/
def nodupJ : JSON → Bool
  | .obj fs => nodupKeys (fs.map Prod.fst) && nodupFields fs
  | .arr xs => nodupList xs
  | _ => true

def nodupFields : List (String × JSON) → Bool
  | [] => true
  | (_, v) :: rest => nodupJ v && nodupFields rest

def nodupList : List JSON → Bool
  | [] => true
  | v :: rest => nodupJ v && nodupList rest
end

namespace Wallet

/-- The concrete `APIObject` subclasses of `coinbase/wallet/model.py`.
`apiObject` is the generic base class itself. -/
inductive Model where
  | apiObject | account | address | checkout | currentUser | merchant
  | money | notification | order | paymentMethod | report | transaction
  | transfer | buy | sell | deposit | withdrawal | user
deriving DecidableEq, Repr

/-- The `_resource_to_model` table of `coinbase/wallet/model.py`. -/
def resourceToModel : String → Option Model
  | "account" => some .account
  | "balance" => some .money
  | "buy" => some .buy
  | "checkout" => some .checkout
  | "deposit" => some .transfer
  | "merchant" => some .merchant
  | "notification" => some .notification
  | "order" => some .order
  | "payment_method" => some .paymentMethod
  | "report" => some .report
  | "sell" => some .sell
  | "transaction" => some .transaction
  | "transfer" => some .transfer
  | "user" => some .user
  | "withdrawal" => some .withdrawal
  | _ => none

/-- Lookup of `obj.get('resource')` in `_resource_to_model`: only a string
value can hit the table (its keys are strings). -/
def resourceLookup (v : Option JSON) : Option Model :=
  match v with
  | some (.str s) => resourceToModel s
  | _ => none

/-- The `_obj_keys_to_model` table of `coinbase/wallet/model.py`, in its
(insertion-order) iteration order: a single entry mapping the required key
set `{amount, currency}` to `Money`. -/
def objKeysToModel : List (List String × Model) :=
  [(["amount", "currency"], .money)]

/-- The key-set scan of `new_api_object`: first table entry whose required
keys are all among the object's keys. -/
def keysetScan (objKeys : List String) : Option Model :=
  match objKeysToModel.find? (fun e => e.1.all (fun k => objKeys.contains k)) with
  | some e => some e.2
  | none => none

/-- Type resolution of `new_api_object` (`coinbase/wallet/model.py`,
lines 11-22): a caller-supplied class wins outright; otherwise the
`resource` discriminator field is looked up in `_resource_to_model`;
otherwise the key-set table is scanned; otherwise the generic
`APIObject`. -/
def resolve (fields : List (String × JSON)) (cls : Option Model) : Model :=
  let c1 := match cls with
    | some c => some c
    | none => resourceLookup (jlookup "resource" fields)
  let c2 := match c1 with
    | some c => some c
    | none => keysetScan (fields.map Prod.fst)
  c2.getD .apiObject

/-- A materialized value: a scalar left unchanged, a list of materialized
children, or a typed container (an `APIObject` or subclass instance)
holding its mapping contents.  Identity attributes (api client, response,
pagination, warnings) are not part of the mapping; `new_api_object` never
sets them on the containers it builds (they remain `None`), so they are
not stored here. -/
inductive WValue where
  | scalar (j : JSON)
  | arr (xs : List WValue)
  | container (cls : Model) (fields : List (String × WValue))
deriving Repr

mutual
/-- The `new_api_object` function of `coinbase/wallet/model.py`: a dict is
turned into an instance of the resolved class and its pairs are stored in
insertion order (`result[k] = new_api_object(client, v)`); a list is
materialized element-wise, propagating the explicit class; anything else
is returned unchanged.  The client reference is identity context threaded
through unchanged and does not influence the structure built, so it is
not a parameter of the embedding. -/
def new_api_object (v : JSON) (cls : Option Model) : WValue :=
  match v with
  | .obj fields => .container (resolve fields cls) (napFields fields [])
  | .arr xs => .arr (napList xs cls)
  | v => .scalar v

/-- The `for k, v in six.iteritems(obj): result[k] = new_api_object(client, v)`
loop: left fold of dict assignment over the source pairs.  Recursive calls
pass no explicit class. -/
def napFields : List (String × JSON) → List (String × WValue) → List (String × WValue)
  | [], acc => acc
  | (k, v) :: rest, acc => napFields rest (dictSet acc k (new_api_object v none))

/-- The list branch `[new_api_object(client, v, cls) for v in obj]`: the
explicit class is propagated to every element. -/
def napList : List JSON → Option Model → List WValue
  | [], _ => []
  | v :: rest, cls => new_api_object v cls :: napList rest cls
end

mutual
/-- JSON serialization of a materialized value (`json.dumps` of an
`APIObject`): an `APIObject` is a dict, so only its mapping contents are
emitted, in insertion order; identity attributes are instance attributes,
not dict items, and never appear. -/
def toJSON : WValue → JSON
  | .scalar j => j
  | .arr xs => .arr (toJSONList xs)
  | .container _ fs => .obj (toJSONFields fs)

def toJSONFields : List (String × WValue) → List (String × JSON)
  | [] => []
  | (k, v) :: rest => (k, toJSON v) :: toJSONFields rest

def toJSONList : List WValue → List JSON
  | [] => []
  | v :: rest => toJSON v :: toJSONList rest
end

mutual
/-- The materialized value has the same tree shape as the source JSON
value: every object node became exactly one container node with the same
keys in the same order, every list kept its length and order, and every
scalar is bit-identical. -/
def sameShape : WValue → JSON → Bool
  | .container _ fs, .obj gs => sameShapeFields fs gs
  | .arr xs, .arr ys => sameShapeList xs ys
  | .scalar a, j => !j.isComposite && scalarEq a j
  | _, _ => false

def sameShapeFields : List (String × WValue) → List (String × JSON) → Bool
  | [], [] => true
  | (k, v) :: rest, (k₀, w) :: rest₀ => k == k₀ && sameShape v w && sameShapeFields rest rest₀
  | _, _ => false

def sameShapeList : List WValue → List JSON → Bool
  | [], [] => true
  | v :: rest, w :: rest₀ => sameShape v w && sameShapeList rest rest₀
  | _, _ => false
end

end Wallet

/-- An index expression handed to `__getitem__`: a Python int, a slice, or
a string key. -/
inductive Ix where
  | int (i : Int)
  | slice (start stop step : Option Int)
  | str (s : String)

/-- Python list indexing `xs[i]`: negative indices count from the end; an
out-of-range index raises `IndexError` (modelled as `none`). -/
def pyIndex (xs : List α) (i : Int) : Option α :=
  let n : Int := xs.length
  let j := if i < 0 then i + n else i
  if 0 ≤ j ∧ j < n then xs[j.toNat]? else none

/-- CPython `slice.indices(n)`: normalized (start, stop, step) for a list
of length `n`; `none` when step is zero (`ValueError`). -/
def pySliceIndices (n : Nat) (start stop step : Option Int) : Option (Int × Int × Int) :=
  let st := step.getD 1
  if st == 0 then none
  else if st > 0 then
    let lo := match start with
      | none => 0
      | some s => if s < 0 then max (s + n) 0 else min s n
    let hi := match stop with
      | none => (n : Int)
      | some s => if s < 0 then max (s + n) 0 else min s n
    some (lo, hi, st)
  else
    let lo := match start with
      | none => (n : Int) - 1
      | some s => if s < 0 then max (s + n) (-1) else min s ((n : Int) - 1)
    let hi := match stop with
      | none => -1
      | some s => if s < 0 then max (s + n) (-1) else min s ((n : Int) - 1)
    some (lo, hi, st)

/-- Number of elements selected by a normalized slice. -/
def sliceLen (lo hi st : Int) : Nat :=
  if st > 0 then (if hi ≤ lo then 0 else ((hi - lo + st - 1) / st).toNat)
  else (if lo ≤ hi then 0 else ((lo - hi + (-st) - 1) / (-st)).toNat)

/-- Python list slicing `xs[start:stop:step]`. -/
def pySlice (xs : List α) (start stop step : Option Int) : Option (List α) :=
  match pySliceIndices xs.length start stop step with
  | none => none
  | some (lo, hi, st) =>
    some ((List.range (sliceLen lo hi st)).filterMap (fun k => xs[(lo + k * st).toNat]?))

namespace Wallet

/-- Names of the public methods the various `APIObject` subclasses of
`coinbase/wallet/model.py` define (in addition to the base-class and dict
interface); on an instance of that class, these names resolve to bound
methods before `__getattr__` is consulted, shadowing mapping keys. -/
def modelMethodNames : Model → List String
  | .account =>
      ["set_primary", "modify", "delete", "get_addresses", "get_address",
       "get_address_transactions", "create_address", "get_transactions",
       "get_transaction", "send_money", "transfer_money", "request_money",
       "get_reports", "get_report", "create_report", "get_buys", "get_buy",
       "buy", "commit_buy", "get_sells", "get_sell", "sell", "commit_sell",
       "get_deposits", "get_deposit", "deposit", "commit_deposit",
       "get_withdrawals", "get_withdrawal", "withdraw", "commit_withdrawal"]
  | .checkout => ["get_orders", "create_order"]
  | .order => ["refund"]
  | .transaction => ["complete", "resend", "cancel"]
  | .transfer => ["commit"]
  | .buy => ["commit"]
  | .sell => ["commit"]
  | .deposit => ["commit"]
  | .withdrawal => ["commit"]
  | .currentUser => ["modify"]
  | _ => []

/-- Attribute names supplied by the class hierarchy of every `APIObject`
(`coinbase/wallet/model.py`): the four identity properties and `refresh`,
the name-mangled identity slots set by `__init__`, the `dict` method
names, and the special method/attribute names of `dict`/`object`
(including the ones `APIObject` itself overrides).  Normal attribute
lookup finds these on the class or instance before `__getattr__` would
consult the mapping, so a mapping key with one of these names is shadowed
in attribute access. -/
def baseAttrNames : List String :=
  ["api_client", "response", "warnings", "pagination", "refresh",
   "_APIObject__api_client", "_APIObject__response",
   "_APIObject__pagination", "_APIObject__warnings",
   "clear", "copy", "fromkeys", "get", "items", "keys", "pop", "popitem",
   "setdefault", "update", "values",
   "__class__", "__contains__", "__delattr__", "__delitem__", "__dict__",
   "__dir__", "__doc__", "__eq__", "__format__", "__ge__", "__getattr__",
   "__getattribute__", "__getitem__", "__gt__", "__hash__", "__init__",
   "__init_subclass__", "__iter__", "__le__", "__len__", "__lt__",
   "__module__", "__name__", "__ne__", "__new__", "__reduce__",
   "__reduce_ex__", "__repr__", "__reversed__", "__setattr__",
   "__setitem__", "__sizeof__", "__str__", "__subclasshook__",
   "__weakref__"]

/-- All attribute names supplied by the class of a container of model
class `m` (shadow set for attribute access). -/
def classAttrNames (m : Model) : List String :=
  baseAttrNames ++ modelMethodNames m

/-- Result of Python attribute access `container.k`. -/
inductive AttrRes where
  | classAttr
  /- the name resolved to an attribute supplied by the class hierarchy (an
  identity property value -- `None` on containers built by
  `new_api_object` -- or a bound method); such a result is never a value
  of the mapping. -/
  | mapped (v : WValue)
  /- normal lookup failed and `__getattr__` returned the mapping entry. -/
  | attrError
  /- `AttributeError`: the name is neither a class attribute nor a key. -/
deriving Repr

/-- Python attribute access on a wallet `APIObject`: normal attribute
lookup (class properties and methods, instance slots) wins; only when it
fails does `__getattr__` (`coinbase/wallet/model.py`, lines 78-84) fall
back to `dict.__getitem__`, translating `KeyError` to `AttributeError`. -/
def getattr (cls : Model) (fields : List (String × WValue)) (k : String) : AttrRes :=
  if k ∈ classAttrNames cls then .classAttr
  else match jlookup k fields with
    | some v => .mapped v
    | none => .attrError

/-- The `__getitem__` of the wallet `APIObject` (`coinbase/wallet/model.py`,
lines 107-111): when the mapping holds a key literally named `data` whose
value is a list, int and slice indexing are redirected to that list;
everything else goes to `dict.__getitem__` (string keys hit the mapping,
int/slice keys raise since all mapping keys are strings).  `none` models
the raised `KeyError`/`IndexError`/`TypeError`. -/
def getitem (_cls : Model) (fields : List (String × WValue)) : Ix → Option WValue
  | .str s => jlookup s fields
  | .int i =>
    match jlookup "data" fields with
    | some (.arr xs) => pyIndex xs i
    | _ => none
  | .slice a b c =>
    match jlookup "data" fields with
    | some (.arr xs) => (pySlice xs a b c).map WValue.arr
    | _ => none

/-- A pending HTTP request the client is about to issue (method fixed to
POST for the money-moving endpoints; path segments as passed to
`_post`). -/
structure Req where
  path : List String
  body : List (String × JSON)
deriving Repr

/-- The `Client.send_money` of `coinbase/wallet/client.py` (lines 361-369)
up to its one network call: each of `to`, `amount`, `currency` must be a
key of `params`, else `ValueError` is raised before any request is
issued; otherwise `type` is set to `send` and the POST request is the
next effect.  `Except.error` carries the name of the first missing
parameter; an `ok` result is the request that is then issued. -/
def sendMoney (accountId : String) (params : List (String × JSON)) : Except String Req :=
  match (["to", "amount", "currency"].find? (fun r => !(params.map Prod.fst).contains r)) with
  | some missing => .error missing
  | none =>
    .ok ⟨["v2", "accounts", accountId, "transactions"], dictSet params "type" (.str "send")⟩

/-- The `Client.transfer_money` of `coinbase/wallet/client.py`
(lines 371-379), modelled like `sendMoney`. -/
def transferMoney (accountId : String) (params : List (String × JSON)) : Except String Req :=
  match (["to", "amount", "currency"].find? (fun r => !(params.map Prod.fst).contains r)) with
  | some missing => .error missing
  | none =>
    .ok ⟨["v2", "accounts", accountId, "transactions"], dictSet params "type" (.str "transfer")⟩

/-- The `Client.request_money` of `coinbase/wallet/client.py`
(lines 381-389), modelled like `sendMoney`. -/
def requestMoney (accountId : String) (params : List (String × JSON)) : Except String Req :=
  match (["to", "amount", "currency"].find? (fun r => !(params.map Prod.fst).contains r)) with
  | some missing => .error missing
  | none =>
    .ok ⟨["v2", "accounts", accountId, "transactions"], dictSet params "type" (.str "request")⟩

end Wallet

namespace Old

/-- The `APIObject` subclasses of `coinbase/model.py` that participate in
type resolution; `apiObject` is the generic base class. -/
inductive OldModel where
  | apiObject | account | address | button | contact | money | order
  | paymentMethod | transaction | transfer | user
deriving DecidableEq, Repr

/-- The `_key_to_model` table of `coinbase/model.py` (lines 819-841):
enclosing field name to model class. -/
def keyToModel : String → Option OldModel
  | "account" => some .account
  | "accounts" => some .account
  | "addresses" => some .address
  | "balance" => some .money
  | "button" => some .button
  | "buttons" => some .button
  | "contact" => some .contact
  | "contacts" => some .contact
  | "current_user" => some .user
  | "native_balance" => some .money
  | "order" => some .order
  | "orders" => some .order
  | "payment_method" => some .paymentMethod
  | "payment_methods" => some .paymentMethod
  | "recipient" => some .user
  | "sender" => some .user
  | "transaction" => some .transaction
  | "transactions" => some .transaction
  | "transfer" => some .transfer
  | "transfers" => some .transfer
  | "user" => some .user
  | _ => none

/-- The `_obj_keys_to_model` table of `coinbase/model.py` (lines 842-845)
in its (insertion-order) iteration order. -/
def objKeysToModel : List (List String × OldModel) :=
  [(["address", "callback_url", "label"], .address),
   (["amount", "currency"], .money)]

/-- The key-set scan of `APIObject.load`: first table entry whose required
keys are all among the object's keys.  It is run on the keys of the value
as found, before any unnesting. -/
def keysetScan (objKeys : List String) : Option OldModel :=
  match objKeysToModel.find? (fun e => e.1.all (fun k => objKeys.contains k)) with
  | some e => some e.2
  | none => none

/-- Type resolution of `APIObject.load` (`coinbase/model.py`,
lines 45-60): the enclosing key is looked up in `_key_to_model`; if that
fails the key-set table is scanned; the generic `APIObject` is the
fallback. -/
def resolve (key : Option String) (fields : List (String × JSON)) : OldModel :=
  let m := match key with
    | some k => keyToModel k
    | none => none
  let m := match m with
    | some c => some c
    | none => keysetScan (fields.map Prod.fst)
  m.getD .apiObject

/-- The `_unnesters` table of `coinbase/model.py` (lines 812-818): each
hint key maps via `unnest(k)` (`coinbase/util.py`, lines 36-41) to the
single key that is unwrapped one level. -/
def unnesterFor : Option String → Option String
  | some "addresses" => some "address"
  | some "orders" => some "order"
  | some "payment_methods" => some "payment_method"
  | some "transactions" => some "transaction"
  | some "transfers" => some "transfer"
  | _ => none

/-- A value materialized by the older engine: scalar, list, or container.
Containers record the paged key they were constructed with (`paged_key`
is passed down to every nested instance through `**kwargs`); the client
and account references are identity context that does not influence the
structure and is not modelled. -/
inductive OldValue where
  | scalar (j : JSON)
  | arr (xs : List OldValue)
  | container (cls : OldModel) (pagedKey : Option String) (fields : List (String × OldValue))
deriving Repr

/-- Size of a looked-up value is bounded by the size of the list it came
from (for termination of `loadVal`). -/
theorem sizeOf_jlookup {fields : List (String × JSON)} {w : String} {x : JSON}
    (h : jlookup w fields = some x) : sizeOf x < sizeOf fields := by
  induction fields with
  | nil => simp [jlookup] at h
  | cons p rest ih =>
    obtain ⟨k, v⟩ := p
    by_cases hk : k = w
    · simp [jlookup, hk] at h
      subst h
      simp
      omega
    · simp [jlookup, hk] at h
      have := ih h
      simp
      omega

mutual
/-- The `APIObject.load` of `coinbase/model.py` (lines 34-90), the
recursive materializer of the older engine.  A dict resolves its model
class (enclosing key first, then key-set scan on the keys as found), then
the unnester registered for the enclosing key, if any, replaces the value
by `value[k]` -- raising `KeyError` (`none`) when `k` is absent, and
raising (`none`) in the subsequent `six.iteritems` when the unwrapped
value is not a dict; the (possibly unnested) pairs are then loaded
recursively in insertion order into a fresh instance.  A list is loaded
element-wise under the same enclosing key.  Scalars are returned
unchanged.  `none` models an escaping Python exception. -/
def loadVal (v : JSON) (key : Option String) (pk : Option String) : Option OldValue :=
  match v with
  | .obj fields =>
    let cls := resolve key fields
    match unnesterFor key with
    | some w =>
      match h : jlookup w fields with
      | some (.obj inner) =>
        (loadFields inner pk []).map (fun fs => .container cls pk fs)
      | some _ => none
      | none => none
    | none => (loadFields fields pk []).map (fun fs => .container cls pk fs)
  | .arr xs => (loadList xs key pk).map OldValue.arr
  | v => some (.scalar v)
termination_by sizeOf v
decreasing_by
  all_goals simp_wf
  all_goals have hs := sizeOf_jlookup h
  all_goals simp at hs
  all_goals omega

/-- The `for k, v in six.iteritems(value): instance.load(v, key=k)` loop:
each pair is loaded with its key as the new hint key and stored by dict
assignment. -/
def loadFields (fields : List (String × JSON)) (pk : Option String)
    (acc : List (String × OldValue)) : Option (List (String × OldValue)) :=
  match fields with
  | [] => some acc
  | (k, v) :: rest =>
    match loadVal v (some k) pk with
    | some mv => loadFields rest pk (dictSet acc k mv)
    | none => none
termination_by sizeOf fields
decreasing_by
  all_goals simp_wf <;> omega

/-- The list branch `list(imap(partial(self.load, key=key, store=False, ...),
value))`: elements are loaded in order under the unchanged enclosing
key. -/
def loadList (xs : List JSON) (key : Option String) (pk : Option String) :
    Option (List OldValue) :=
  match xs with
  | [] => some []
  | v :: rest =>
    match loadVal v key pk, loadList rest key pk with
    | some mv, some ms => some (mv :: ms)
    | _, _ => none
termination_by sizeOf xs
decreasing_by
  all_goals simp_wf <;> omega
end

mutual
/-- Shape comparison for the older engine, mirroring `Wallet.sameShape`. -/
def sameShape : OldValue → JSON → Bool
  | .container _ _ fs, .obj gs => sameShapeFields fs gs
  | .arr xs, .arr ys => sameShapeList xs ys
  | .scalar a, j => !j.isComposite && scalarEq a j
  | _, _ => false

def sameShapeFields : List (String × OldValue) → List (String × JSON) → Bool
  | [], [] => true
  | (k, v) :: rest, (k₀, w) :: rest₀ => k == k₀ && sameShape v w && sameShapeFields rest rest₀
  | _, _ => false

def sameShapeList : List OldValue → List JSON → Bool
  | [], [] => true
  | v :: rest, w :: rest₀ => sameShape v w && sameShapeList rest rest₀
  | _, _ => false
end

mutual
/-- No object node of the value sits under a hint key that has a
registered unnesting rule: on such values `load` applies no unnester.
Lists propagate the enclosing key to their elements, exactly as `load`
does. -/
def unnestFree : JSON → Option String → Bool
  | .obj fields, key => (unnesterFor key).isNone && unnestFreeFields fields
  | .arr xs, key => unnestFreeList xs key
  | _, _ => true

def unnestFreeFields : List (String × JSON) → Bool
  | [] => true
  | (k, v) :: rest => unnestFree v (some k) && unnestFreeFields rest

def unnestFreeList : List JSON → Option String → Bool
  | [], _ => true
  | v :: rest, key => unnestFree v key && unnestFreeList rest key
end

/-- Size of a looked-up materialized value is bounded by the size of the
field list it came from (for termination of `getitem`). -/
theorem sizeOf_jlookup_old {fields : List (String × OldValue)} {w : String} {x : OldValue}
    (h : jlookup w fields = some x) : sizeOf x < sizeOf fields := by
  induction fields with
  | nil => simp [jlookup] at h
  | cons p rest ih =>
    obtain ⟨k, v⟩ := p
    by_cases hk : k = w
    · simp [jlookup, hk] at h
      subst h
      simp
      omega
    · simp [jlookup, hk] at h
      have := ih h
      simp
      omega

/-- The `__getitem__` of the older `APIObject` (`coinbase/model.py`,
lines 134-137).  On a container: a truthy paged key redirects int/slice
indexing to `self[paged_key][key]` -- a string lookup of the paged key
followed by indexing whatever value it holds (lists index and slice;
nested containers recurse into this same method; strings index by
character; a missing paged key raises `KeyError`); any other access is
`dict.__getitem__` (string keys hit the mapping, int/slice raise, since
mapping keys are strings).  `none` models the raised exception. -/
def getitem (v : OldValue) (ix : Ix) : Option OldValue :=
  match v with
  | .container _ pk fields =>
    match ix with
    | .str s => jlookup s fields
    | _ =>
      match pk with
      | some p =>
        if p.isEmpty then none
        else
          match h : jlookup p fields with
          | some inner => getitem inner ix
          | none => none
      | none => none
  | .arr xs =>
    match ix with
    | .int i => pyIndex xs i
    | .slice a b c => (pySlice xs a b c).map OldValue.arr
    | .str _ => none
  | .scalar (.str s) =>
    match ix with
    | .int i => (pyIndex s.toList i).map (fun ch => .scalar (.str (String.mk [ch])))
    | .slice a b c => (pySlice s.toList a b c).map (fun cs => .scalar (.str (String.mk cs)))
    | .str _ => none
  | .scalar _ => none
termination_by sizeOf v
decreasing_by
  all_goals simp_wf
  have := sizeOf_jlookup_old h
  simp at this
  omega

/-- Python truthiness test used by the amount validation of the older
money-moving methods: the arguments are arbitrary caller-supplied values
(typically `None`, strings or numbers). -/
def amountArgsRaise (amount amountString amountCurrencyIso : JSON) : Bool :=
  (!(amount.truthy || (amountString.truthy && amountCurrencyIso.truthy))) ||
    (amount.truthy && (amountString.truthy || amountCurrencyIso.truthy))

/-- The `Account.send_money` of `coinbase/model.py` (lines 326-355) up to
its one network call: unless exactly one of the two amount
representations (`amount` alone, or `amount_string` together with
`amount_currency_iso`) is supplied, `ValueError` is raised before any
request is issued; otherwise the POST to `transactions/send_money` is the
next effect. -/
def sendMoney (amount amountString amountCurrencyIso : JSON) : Except Unit (List String) :=
  if amountArgsRaise amount amountString amountCurrencyIso then .error ()
  else .ok ["transactions", "send_money"]

/-- The `Account.transfer_money` of `coinbase/model.py` (lines 285-311),
modelled like `sendMoney`. -/
def transferMoney (amount amountString amountCurrencyIso : JSON) : Except Unit (List String) :=
  if amountArgsRaise amount amountString amountCurrencyIso then .error ()
  else .ok ["transactions", "transfer_money"]

/-- The `Account.request_money` of `coinbase/model.py` (lines 369-390),
modelled like `sendMoney`. -/
def requestMoney (amount amountString amountCurrencyIso : JSON) : Except Unit (List String) :=
  if amountArgsRaise amount amountString amountCurrencyIso then .error ()
  else .ok ["transactions", "request_money"]

end Old

/-! ## Helper lemmas -/

/-- Identity-attribute names of the wallet containers (constructor
keyword arguments of `APIObject.__init__` plus the client reference). -/
def identityNames : List String := ["api_client", "response", "pagination", "warnings"]

mutual
/-- No key anywhere in the value collides with an identity-attribute
name. -/
def identityFreeJ : JSON → Bool
  | .obj fs =>
    (fs.map Prod.fst).all (fun k => !identityNames.contains k) && identityFreeFields fs
  | .arr xs => identityFreeList xs
  | _ => true

def identityFreeFields : List (String × JSON) → Bool
  | [] => true
  | (_, v) :: rest => identityFreeJ v && identityFreeFields rest

def identityFreeList : List JSON → Bool
  | [] => true
  | v :: rest => identityFreeJ v && identityFreeList rest
end

theorem napList_eq_map (xs : List JSON) (cls : Option Wallet.Model) :
    Wallet.napList xs cls = xs.map (fun x => Wallet.new_api_object x cls) := by
  induction xs with
  | nil => rfl
  | cons x rest ih => simp [Wallet.napList, ih]

theorem pyIndex_zero {α : Type} (a b c : α) : pyIndex [a, b, c] 0 = some a := by
  simp [pyIndex]

theorem pySlice_full {α : Type} (a b c : α) :
    pySlice [a, b, c] none none none = some [a, b, c] := by
  have hr : List.range 3 = [0, 1, 2] := by decide
  simp [pySlice, pySliceIndices, sliceLen, hr]

theorem pySlice_rev {α : Type} (a b c : α) :
    pySlice [a, b, c] none none (some (-1)) = some [c, b, a] := by
  have hr : List.range 3 = [0, 1, 2] := by decide
  simp [pySlice, pySliceIndices, sliceLen, hr]

/-! ## Claims -/

/-- C1 (amended): for every key of the mapping contents of a wallet
container that does not collide with an attribute name supplied by the
container's class hierarchy (identity properties, methods, the dict and
object interfaces, name-mangled identity slots), mapping-style access and
attribute-style access yield the identical object; since this holds for
every container it holds for every nested container of a materialized
tree.  Keys that do collide with a class attribute name are shadowed in
attribute access (see the counterexample), which is what the amendment
excludes. -/
theorem c1_dual_access (cls : Wallet.Model) (fields : List (String × Wallet.WValue))
    (k : String) (v : Wallet.WValue)
    (hshadow : k ∉ Wallet.classAttrNames cls)
    (hmem : jlookup k fields = some v) :
    Wallet.getattr cls fields k = .mapped v ∧
    Wallet.getitem cls fields (.str k) = some v := by
  constructor
  · simp [Wallet.getattr, hshadow, hmem]
  · simp [Wallet.getitem, hmem]

theorem c1_dual_access_witness :
    "id" ∉ Wallet.classAttrNames .apiObject ∧
    (Wallet.getattr .apiObject [("id", .scalar (.str "x1"))] "id" =
        .mapped (.scalar (.str "x1")) ∧
      Wallet.getitem .apiObject [("id", .scalar (.str "x1"))] (.str "id") =
        some (.scalar (.str "x1"))) :=
  ⟨by decide,
   c1_dual_access .apiObject [("id", .scalar (.str "x1"))] "id" (.scalar (.str "x1"))
     (by decide) (by simp [jlookup])⟩

/-- C1 counterexample: materializing the object with the single key
`response` yields a container whose mapping holds that key, and mapping
access returns the stored string; but attribute access resolves
`container.response` to the class-supplied identity property (whose value
on a container built by `new_api_object` is `None`), not to the mapping
value, so the two access paths return different objects and the key is
shadowed. -/
theorem c1_counterexample :
    Wallet.new_api_object (.obj [("response", .str "x")]) none =
      .container .apiObject [("response", .scalar (.str "x"))] ∧
    Wallet.getitem .apiObject [("response", .scalar (.str "x"))] (.str "response") =
      some (.scalar (.str "x")) ∧
    Wallet.getattr .apiObject [("response", .scalar (.str "x"))] "response" = .classAttr ∧
    Wallet.getattr .apiObject [("response", .scalar (.str "x"))] "response" ≠
      .mapped (.scalar (.str "x")) := by
  refine ⟨rfl, rfl, rfl, ?_⟩
  intro h
  rw [show Wallet.getattr .apiObject [("response", .scalar (.str "x"))] "response" =
    Wallet.AttrRes.classAttr from rfl] at h
  cases h

/-- C8: paging-aware indexing.  Wallet variant (data key): on a container
whose mapping holds the key literally named `data` with value `[a, b, c]`,
indexing with `0` yields `a`, the full slice yields `[a, b, c]`, the
reversed slice yields `[c, b, a]`, and string-key lookup is unaffected by
the redirection (it always reads the mapping).  Older variant (paged
key): the same holds for a container constructed with a truthy paged key
whose mapped value is the list `[a, b, c]`. -/
theorem c8_paging_index :
    (∀ (cls : Wallet.Model) (fields : List (String × Wallet.WValue)) (a b c : Wallet.WValue),
      jlookup "data" fields = some (.arr [a, b, c]) →
      Wallet.getitem cls fields (.int 0) = some a ∧
      Wallet.getitem cls fields (.slice none none none) = some (.arr [a, b, c]) ∧
      Wallet.getitem cls fields (.slice none none (some (-1))) = some (.arr [c, b, a]) ∧
      (∀ s, Wallet.getitem cls fields (.str s) = jlookup s fields)) ∧
    (∀ (cls : Old.OldModel) (pk : String) (fields : List (String × Old.OldValue))
        (a b c : Old.OldValue),
      pk.isEmpty = false →
      jlookup pk fields = some (.arr [a, b, c]) →
      Old.getitem (.container cls (some pk) fields) (.int 0) = some a ∧
      Old.getitem (.container cls (some pk) fields) (.slice none none none) =
        some (.arr [a, b, c]) ∧
      Old.getitem (.container cls (some pk) fields) (.slice none none (some (-1))) =
        some (.arr [c, b, a]) ∧
      (∀ s, Old.getitem (.container cls (some pk) fields) (.str s) = jlookup s fields)) := by
  constructor
  · intro cls fields a b c h
    refine ⟨?_, ?_, ?_, fun s => rfl⟩
    · simp [Wallet.getitem, h, pyIndex_zero]
    · simp [Wallet.getitem, h, pySlice_full]
    · simp [Wallet.getitem, h, pySlice_rev]
  · intro cls pk fields a b c hpk h
    refine ⟨?_, ?_, ?_, fun s => ?_⟩
    · simp only [Old.getitem, hpk, Bool.false_eq_true, if_false]
      split
      · rename_i inner heq
        rw [h] at heq
        cases heq
        simp [Old.getitem, pyIndex_zero]
      · rename_i heq
        rw [h] at heq
        cases heq
    · simp only [Old.getitem, hpk, Bool.false_eq_true, if_false]
      split
      · rename_i inner heq
        rw [h] at heq
        cases heq
        simp [Old.getitem, pySlice_full]
      · rename_i heq
        rw [h] at heq
        cases heq
    · simp only [Old.getitem, hpk, Bool.false_eq_true, if_false]
      split
      · rename_i inner heq
        rw [h] at heq
        cases heq
        simp [Old.getitem, pySlice_rev]
      · rename_i heq
        rw [h] at heq
        cases heq
    · simp [Old.getitem]

theorem c8_paging_index_witness :
    jlookup "data"
        [("data", Wallet.WValue.arr [.scalar (.num 1), .scalar (.num 2), .scalar (.num 3)])] =
      some (.arr [.scalar (.num 1), .scalar (.num 2), .scalar (.num 3)]) ∧
    Wallet.getitem .apiObject
        [("data", Wallet.WValue.arr [.scalar (.num 1), .scalar (.num 2), .scalar (.num 3)])]
        (.int 0) = some (.scalar (.num 1)) ∧
    Wallet.getitem .apiObject
        [("data", Wallet.WValue.arr [.scalar (.num 1), .scalar (.num 2), .scalar (.num 3)])]
        (.slice none none (some (-1))) =
      some (.arr [.scalar (.num 3), .scalar (.num 2), .scalar (.num 1)]) :=
  ⟨rfl,
   (c8_paging_index.1 .apiObject
     [("data", Wallet.WValue.arr [.scalar (.num 1), .scalar (.num 2), .scalar (.num 3)])]
     (.scalar (.num 1)) (.scalar (.num 2)) (.scalar (.num 3)) rfl).1,
   (c8_paging_index.1 .apiObject
     [("data", Wallet.WValue.arr [.scalar (.num 1), .scalar (.num 2), .scalar (.num 3)])]
     (.scalar (.num 1)) (.scalar (.num 2)) (.scalar (.num 3)) rfl).2.2.1⟩

/-- C9: precondition failure is local and precedes I/O.  Older variant:
whenever neither amount representation is supplied (the `amount` argument
is falsy and the `amount_string`/`amount_currency_iso` pair is not fully
truthy), `send_money`, `transfer_money` and `request_money` raise
`ValueError` before issuing any request -- the error result of the model
carries no request, while a success result is exactly the request issued
next.  Wallet variant: whenever one of the required parameters `to`,
`amount`, `currency` is missing from the keyword arguments, the three
methods raise `ValueError` naming a missing parameter, again before any
request. -/
theorem c9_precondition :
    (∀ amount amountString amountCurrencyIso : JSON,
      amount.truthy = false → (amountString.truthy && amountCurrencyIso.truthy) = false →
      Old.sendMoney amount amountString amountCurrencyIso = .error () ∧
      Old.transferMoney amount amountString amountCurrencyIso = .error () ∧
      Old.requestMoney amount amountString amountCurrencyIso = .error ()) ∧
    (∀ (accountId : String) (params : List (String × JSON)),
      ((params.map Prod.fst).contains "to" = false ∨
        (params.map Prod.fst).contains "amount" = false ∨
        (params.map Prod.fst).contains "currency" = false) →
      (∃ m, Wallet.sendMoney accountId params = .error m) ∧
      (∃ m, Wallet.transferMoney accountId params = .error m) ∧
      (∃ m, Wallet.requestMoney accountId params = .error m)) := by
  constructor
  · intro amount amountString amountCurrencyIso h1 h2
    refine ⟨?_, ?_, ?_⟩ <;>
      simp [Old.sendMoney, Old.transferMoney, Old.requestMoney, Old.amountArgsRaise, h1, h2]
  · intro accountId params h
    have hsome :
        (["to", "amount", "currency"].find?
          (fun r => !(params.map Prod.fst).contains r)).isSome = true := by
      rw [List.find?_isSome]
      rcases h with h | h | h
      · exact ⟨"to", by simp, by simpa using h⟩
      · exact ⟨"amount", by simp, by simpa using h⟩
      · exact ⟨"currency", by simp, by simpa using h⟩
    obtain ⟨m, hm⟩ := Option.isSome_iff_exists.mp hsome
    exact ⟨⟨m, by unfold Wallet.sendMoney; rw [hm]⟩,
           ⟨m, by unfold Wallet.transferMoney; rw [hm]⟩,
           ⟨m, by unfold Wallet.requestMoney; rw [hm]⟩⟩

theorem c9_precondition_witness :
    JSON.truthy .null = false ∧
    (JSON.truthy .null && JSON.truthy .null) = false ∧
    Old.sendMoney .null .null .null = .error () ∧
    ([("to", JSON.str "u")].map Prod.fst).contains "amount" = false ∧
    (∃ m, Wallet.sendMoney "a1" [("to", JSON.str "u")] = .error m) :=
  ⟨rfl, rfl,
   (c9_precondition.1 .null .null .null rfl rfl).1,
   rfl,
   ((c9_precondition.2 "a1" [("to", JSON.str "u")]) (Or.inr (Or.inl rfl))).1⟩

/-- C10: an explicit caller-supplied class is propagated to every element
of a materialized list -- the list branch of `new_api_object` passes
`cls` through unchanged, each dict element resolves to exactly that
class (discriminator and key-set tables are never consulted, the
resolution short-circuit), and concretely a list element whose own
`resource` field maps to `User` still materializes as an `Account` when
`Account` is the explicit class. -/
theorem c10_explicit_type_propagation :
    (∀ (xs : List JSON) (c : Wallet.Model),
      Wallet.new_api_object (.arr xs) (some c) =
        .arr (xs.map (fun x => Wallet.new_api_object x (some c)))) ∧
    (∀ (fields : List (String × JSON)) (c : Wallet.Model),
      Wallet.resolve fields (some c) = c) ∧
    Wallet.new_api_object (.arr [.obj [("resource", .str "user")]]) (some .account) =
      .arr [.container .account [("resource", .scalar (.str "user"))]] := by
  refine ⟨?_, fun fields c => rfl, rfl⟩
  intro xs c
  simp [Wallet.new_api_object, napList_eq_map]
